import Mathlib

/-!
Verification of the pmacFilterControl decision engine (src/pmacFilterControl.cpp).

The definitions below are a shallow embedding of the controller's internal
logic: the filter engine (`set_attenuation`), the state-transition side
effects (`transition_state`), the per-message data path
(`process_data`, `handle_data_message`, `data_channel_step`) and the
configure path (`handle_config`, `handle_configure_request`).

Modelling conventions:
- C++ machine integers become `Int` (frame numbers, attenuation, enum values);
  the `uint64_t` pixel-count thresholds become `Nat`, and a stored config value
  is reduced mod 2^64 as `static_cast<uint64_t>` would.
- The JSON messages are modelled structurally: a data message is either `null`
  (unparseable input) or an object whose `frame_number` / `parameters` keys may
  be absent.  The nlohmann conversion of a missing `frame_number` to `int`
  throws, which is modelled with `Except Unit`.
- Wall-clock timestamps and the moving-average timing statistics are not
  modelled (they do not feed back into the decision logic).
- Motion-sink effects are modelled where a claim observes them: the shutter
  close command issued on a high3 breach.  The phase-1/phase-2 axis demands of
  the motion program are held in the state (`post_in_demand` / `final_demand`).
- The `float timeout_` config field is modelled as `Rat`; no claim exercises
  floating-point rounding (only the sign test in `_set_timeout`).
-/

namespace PmacFilterControl

/-- All filters in: 1 + 2 + 4 + 8. -/
def MAX_ATTENUATION : Int := 15

/-- ControlMode enum value MANUAL (0). -/
def MANUAL : Int := 0

/-- ControlMode enum value CONTINUOUS (1). -/
def CONTINUOUS : Int := 1

/-- ControlMode enum value SINGLESHOT (2). -/
def SINGLESHOT : Int := 2

/-- ControlMode enum value CONTROL_MODE_SIZE (3), used for range checking. -/
def CONTROL_MODE_SIZE : Int := 3

/-- ControlState enum value HIGH3_TRIGGERED (-2); error states are negative. -/
def HIGH3_TRIGGERED : Int := -2

/-- ControlState enum value TIMEOUT (-1); error states are negative. -/
def TIMEOUT_TRIGGERED : Int := -1

/-- ControlState enum value IDLE (0). -/
def IDLE : Int := 0

/-- ControlState enum value WAITING (1). -/
def WAITING : Int := 1

/-- ControlState enum value ACTIVE (2). -/
def ACTIVE : Int := 2

/-- Modelled from the spec: the checked-in header predates the
`SINGLESHOT_WAITING` state used by `pmacFilterControl.cpp`; the spec lists the
healthy states in the order IDLE (0), WAITING (1), ACTIVE (2),
SINGLESHOT_WAITING, SINGLESHOT_COMPLETE, with error states negative, giving
`SINGLESHOT_WAITING` the value 3. -/
def SINGLESHOT_WAITING : Int := 3

/-- Modelled from the spec: ControlState enum value SINGLESHOT_COMPLETE (4),
following `SINGLESHOT_WAITING` in the spec's ordering of healthy states. -/
def SINGLESHOT_COMPLETE : Int := 4

/-- Initial invalid frame value that always passes the ignore-frame checks. -/
def NO_FRAMES_PROCESSED : Int := -2

/-- The histogram bins recognized by the threshold logic. -/
inductive ThresholdName where
  | low1
  | low2
  | high1
  | high2
  | high3
deriving DecidableEq

/-- The attenuation adjustment applied for a given triggered threshold
(the `THRESHOLD_ADJUSTMENTS` map). -/
def THRESHOLD_ADJUSTMENTS : ThresholdName → Int
  | .high3 => 15
  | .high2 => 2
  | .high1 => 1
  | .low2 => -2
  | .low1 => -1

/-- The `pixel_count_thresholds_` map: one `uint64_t` per recognized bin. -/
structure Thresholds where
  low1 : Nat
  low2 : Nat
  high1 : Nat
  high2 : Nat
  high3 : Nat
deriving DecidableEq

/-- The `parameters` object of a data message: one integer per histogram bin. -/
structure Params where
  low1 : Int
  low2 : Int
  high1 : Int
  high2 : Int
  high3 : Int
deriving DecidableEq

/-- A published event message. -/
structure Event where
  frame_number : Int
  adjustment : Int
  attenuation : Int
deriving DecidableEq

/-- Commands issued to the motion controller that the claims observe. -/
inductive MotionCmd where
  | closeShutter
deriving DecidableEq

/-- A parsed data message: `null` for unparseable input, otherwise an object
whose `frame_number` and `parameters` keys may each be absent. -/
inductive DataMsg where
  | null
  | obj (frame_number : Option Int) (parameters : Option Params)

/-- The controller state fields that the decision logic reads and writes. -/
structure CState where
  state : Int
  last_received_frame : Int
  last_processed_frame : Int
  current_attenuation : Int
  last_adjustment : Int
  current_demand : Fin 4 → Nat
  post_in_demand : Fin 4 → Nat
  final_demand : Fin 4 → Nat
  mode : Int
  timeout : Rat
  in_positions : Fin 4 → Int
  out_positions : Fin 4 → Int
  pixel_count_thresholds : Thresholds
  singleshot_start : Bool
  clear_error : Bool
  shutdown : Bool

/-- The constructor's initial state. -/
def initial_state : CState where
  state := IDLE
  last_received_frame := NO_FRAMES_PROCESSED
  last_processed_frame := NO_FRAMES_PROCESSED
  current_attenuation := 0
  last_adjustment := 0
  current_demand := fun _ => 0
  post_in_demand := fun _ => 0
  final_demand := fun _ => 0
  mode := MANUAL
  timeout := 3
  in_positions := fun _ => 0
  out_positions := fun _ => 0
  pixel_count_thresholds := ⟨2, 2, 2, 2, 2⟩
  singleshot_start := false
  clear_error := false
  shutdown := false

/-- The clamp applied at the top of `_set_attenuation`:
`if (attenuation <= 0) attenuation = 0; else if (attenuation >= MAX_ATTENUATION)
attenuation = MAX_ATTENUATION;`. -/
def clampAtt (attenuation : Int) : Int :=
  if attenuation ≤ 0 then 0
  else if MAX_ATTENUATION ≤ attenuation then MAX_ATTENUATION
  else attenuation

/-- `PMACFilterController::_set_attenuation`: clamp the target, compute
`final_demand[idx] = (attenuation >> idx) & 1` and
`post_in_demand[idx] = final_demand[idx] | current_demand[idx]`, then update
`current_demand` and `current_attenuation` for the next incremental change. -/
def set_attenuation (s : CState) (attenuation : Int) : CState :=
  { s with
    final_demand := fun idx => ((clampAtt attenuation).toNat >>> idx.val) &&& 1
    post_in_demand := fun idx =>
      (((clampAtt attenuation).toNat >>> idx.val) &&& 1) ||| s.current_demand idx
    current_demand := fun idx => ((clampAtt attenuation).toNat >>> idx.val) &&& 1
    current_attenuation := clampAtt attenuation }

/-- `PMACFilterController::_trigger_threshold`: look up the adjustment, command
`current_attenuation + adjustment` and record the adjustment. -/
def trigger_threshold (s : CState) (threshold : ThresholdName) : CState :=
  let adjustment := THRESHOLD_ADJUSTMENTS threshold
  { set_attenuation s (s.current_attenuation + adjustment) with
    last_adjustment := adjustment }

/-- `PMACFilterController::_transition_state`: when the state changes, command
max attenuation if the new state is below `WAITING` (`state < 1`) or the new
state is `WAITING`/`SINGLESHOT_WAITING` and the old state was healthy
(`state_ >= 0`); then store the new state. -/
def transition_state (s : CState) (state : Int) : CState :=
  let s1 :=
    if state ≠ s.state then
      if state < 1 ∨ ((state = WAITING ∨ state = SINGLESHOT_WAITING) ∧ 0 ≤ s.state) then
        set_attenuation s MAX_ATTENUATION
      else s
    else s
  { s1 with state := state }

/-- The threshold-selection tail of `PMACFilterController::_process_data`
(reached only after the high3 and frame-ordering checks): strict priority
high2 (+2), high1 (+1), low2 (-2), low1 (-1), else no adjustment.  High bins
compare with `>`, low bins with `<`.  Returns the new state, the motion
commands issued, and whether an attenuation change was made. -/
def apply_thresholds (s : CState) (histogram : Params) : CState × List MotionCmd × Bool :=
  if histogram.high2 > (s.pixel_count_thresholds.high2 : Int) then
    (trigger_threshold s .high2, [], true)
  else if histogram.high1 > (s.pixel_count_thresholds.high1 : Int) then
    (trigger_threshold s .high1, [], true)
  else if histogram.low2 < (s.pixel_count_thresholds.low2 : Int) then
    (trigger_threshold s .low2, [], true)
  else if histogram.low1 < (s.pixel_count_thresholds.low1 : Int) then
    (trigger_threshold s .low1, [], true)
  else (s, [], false)

/-- `PMACFilterController::_process_data`: validate that the message has the
`frame_number` and `parameters` keys (here `frame_number` is already known to
be present, see `handle_data_message`); close the shutter and enter
`HIGH3_TRIGGERED` if the high3 threshold is exceeded, regardless of the frame
number; otherwise drop frames with `frame_number <= last_processed_frame_` or
`frame_number == last_processed_frame_ + 1`; otherwise select a threshold. -/
def process_data (s : CState) (frame_number : Int) (parameters : Option Params) :
    CState × List MotionCmd × Bool :=
  match parameters with
  | none => (s, [], false)
  | some histogram =>
    if histogram.high3 > (s.pixel_count_thresholds.high3 : Int) then
      let s1 := trigger_threshold s .high3
      let s2 := transition_state s1 HIGH3_TRIGGERED
      (s2, [MotionCmd.closeShutter], true)
    else if frame_number ≤ s.last_processed_frame then (s, [], false)
    else if frame_number = s.last_processed_frame + 1 then (s, [], false)
    else apply_thresholds s histogram

/-- The observable outcome of receiving one message on the data channel. -/
structure StepResult where
  state : CState
  events : List Event
  cmds : List MotionCmd
  processed : Bool

/-- `PMACFilterController::_handle_data_message`: return early on a null
(unparseable) message; converting a missing `frame_number` to `int` throws
(modelled as `Except.error`); otherwise record `last_received_frame_`, publish
the event with the previous adjustment and the current attenuation *before*
processing, then either record `last_processed_frame_` (processed) or zero
`last_adjustment_` (not processed). -/
def handle_data_message (s : CState) (msg : DataMsg) : Except Unit StepResult :=
  match msg with
  | .null => .ok ⟨s, [], [], false⟩
  | .obj none _ => .error ()
  | .obj (some frame_number) parameters =>
    let s1 := { s with last_received_frame := frame_number }
    let ev : Event := ⟨frame_number, s1.last_adjustment, s1.current_attenuation⟩
    let r := process_data s1 frame_number parameters
    if r.2.2 then
      .ok ⟨{ r.1 with last_processed_frame := frame_number }, [ev], r.2.1, true⟩
    else
      .ok ⟨{ r.1 with last_adjustment := 0 }, [ev], r.2.1, false⟩

/-- The per-message body of `PMACFilterController::_process_data_channel`:
messages received outside `WAITING`/`ACTIVE` are received and ignored;
otherwise the message is handled and, if the state is still `WAITING`
afterwards, the controller transitions to `ACTIVE`. -/
def data_channel_step (s : CState) (msg : DataMsg) : Except Unit StepResult :=
  if s.state = WAITING ∨ s.state = ACTIVE then
    match handle_data_message s msg with
    | .error e => .error e
    | .ok r =>
      if r.state.state = WAITING then
        .ok { r with state := transition_state r.state ACTIVE }
      else .ok r
  else .ok ⟨s, [], [], false⟩

/-- `data_channel_step` with the thrown-exception case collapsed to "no
observable outcome", for stating per-step properties. -/
def runStep (s : CState) (msg : DataMsg) : StepResult :=
  match data_channel_step s msg with
  | .ok r => r
  | .error _ => ⟨s, [], [], false⟩

/-- An update of a subset of the four filter positions (`in_positions` /
`out_positions` config keys): each `filter1..filter4` key may be absent. -/
structure PosUpdate where
  filter1 : Option Int := none
  filter2 : Option Int := none
  filter3 : Option Int := none
  filter4 : Option Int := none

/-- An update of a subset of the pixel count thresholds: each recognized bin key
may be absent. -/
structure ThreshUpdate where
  low1 : Option Int := none
  low2 : Option Int := none
  high1 : Option Int := none
  high2 : Option Int := none
  high3 : Option Int := none

/-- A `configure` request's `params` object, restricted to the recognized
keys.  `none` means the key is absent; `some (Except.error ())` models a key
whose JSON value has the wrong type, so that converting it throws
`json::type_error`. -/
structure ConfigReq where
  mode : Option (Except Unit Int) := none
  in_positions : Option (Except Unit PosUpdate) := none
  out_positions : Option (Except Unit PosUpdate) := none
  pixel_count_thresholds : Option (Except Unit ThreshUpdate) := none
  attenuation : Option (Except Unit Int) := none
  timeout : Option (Except Unit Rat) := none

/-- `PMACFilterController::_set_mode`: accept any value below
`CONTROL_MODE_SIZE`. -/
def set_mode (s : CState) (mode : Int) : CState × Bool :=
  if mode < CONTROL_MODE_SIZE then ({ s with mode := mode }, true) else (s, false)

/-- The update requested for one filter index by a `PosUpdate`. -/
def posGet (u : PosUpdate) : Fin 4 → Option Int
  | ⟨0, _⟩ => u.filter1
  | ⟨1, _⟩ => u.filter2
  | ⟨2, _⟩ => u.filter3
  | ⟨3, _⟩ => u.filter4

/-- `PMACFilterController::_set_positions`: overwrite the positions present in
the update; succeed iff at least one recognized key was present. -/
def set_positions (positions : Fin 4 → Int) (u : PosUpdate) : (Fin 4 → Int) × Bool :=
  (fun i => (posGet u i).getD (positions i),
   u.filter1.isSome || u.filter2.isSome || u.filter3.isSome || u.filter4.isSome)

/-- `static_cast<uint64_t>` of a json integer config value. -/
def toU64 (v : Int) : Nat := (v % ((2 : Int) ^ 64)).toNat

/-- `PMACFilterController::_set_pixel_count_thresholds`: overwrite the
thresholds present in the update; succeed iff at least one recognized key was
present. -/
def set_pixel_count_thresholds (s : CState) (u : ThreshUpdate) : CState × Bool :=
  ({ s with pixel_count_thresholds :=
      { low1 := (u.low1.map toU64).getD s.pixel_count_thresholds.low1
        low2 := (u.low2.map toU64).getD s.pixel_count_thresholds.low2
        high1 := (u.high1.map toU64).getD s.pixel_count_thresholds.high1
        high2 := (u.high2.map toU64).getD s.pixel_count_thresholds.high2
        high3 := (u.high3.map toU64).getD s.pixel_count_thresholds.high3 } },
   u.low1.isSome || u.low2.isSome || u.high1.isSome || u.high2.isSome || u.high3.isSome)

/-- `PMACFilterController::_set_timeout`: reject negative values. -/
def set_timeout (s : CState) (timeout : Rat) : CState × Bool :=
  if timeout < 0 then (s, false) else ({ s with timeout := timeout }, true)

/-- Process one recognized config key: skip if absent, abort with a type error
if the value has the wrong type (a thrown `json::type_error` skips the
remaining keys), otherwise apply it and overwrite the running `success`
flag with this key's result. -/
def withKey {α : Type} (acc : CState × Except Unit Bool) (v : Option (Except Unit α))
    (f : CState → α → CState × Bool) : CState × Except Unit Bool :=
  match acc.2 with
  | .error e => (acc.1, .error e)
  | .ok b =>
    match v with
    | none => (acc.1, .ok b)
    | some (.error _) => (acc.1, .error ())
    | some (.ok a) =>
      let r := f acc.1 a
      (r.1, .ok r.2)

/-- `PMACFilterController::_handle_config`: process the recognized keys in
source order (mode, in_positions, out_positions, pixel_count_thresholds,
attenuation, timeout); `success` starts false and is overwritten by each
present key's result; `attenuation` is accepted only in `MANUAL` mode.
Per-entry application of a strict subset of a single positions/thresholds key is not
modelled: a type mismatch is modelled at key granularity. -/
def handle_config (s : CState) (c : ConfigReq) : CState × Except Unit Bool :=
  let a0 : CState × Except Unit Bool := (s, .ok false)
  let a1 := withKey a0 c.mode set_mode
  let a2 := withKey a1 c.in_positions (fun st u =>
    let r := set_positions st.in_positions u
    ({ st with in_positions := r.1 }, r.2))
  let a3 := withKey a2 c.out_positions (fun st u =>
    let r := set_positions st.out_positions u
    ({ st with out_positions := r.1 }, r.2))
  let a4 := withKey a3 c.pixel_count_thresholds set_pixel_count_thresholds
  let a5 := withKey a4 c.attenuation (fun st v =>
    if st.mode = MANUAL then (set_attenuation st v, true) else (st, false))
  withKey a5 c.timeout set_timeout

/-- The `configure` branch of `PMACFilterController::_handle_request`: fail if
the request has no `params`; otherwise run `_handle_config` and map a thrown
`json::type_error` to `success = false`. -/
def handle_configure_request (s : CState) (params : Option ConfigReq) : CState × Bool :=
  match params with
  | none => (s, false)
  | some c =>
    match handle_config s c with
    | (s1, .ok b) => (s1, b)
    | (s1, .error _) => (s1, false)

/-- A histogram with every bin at zero (below the default low thresholds). -/
def hzero : Params := ⟨0, 0, 0, 0, 0⟩

/-- A histogram breaching only the high3 bin. -/
def hHigh3 : Params := ⟨0, 0, 0, 0, 99⟩

/-- A state that has already processed frame 8. -/
def lp8_state : CState := { initial_state with last_processed_frame := 8 }

/-- An `ACTIVE` state that has already processed frame 10. -/
def lp10_active_state : CState :=
  { initial_state with state := ACTIVE, last_processed_frame := 10 }

/-- A healthy `ACTIVE` state holding a mid-range attenuation. -/
def active5_state : CState :=
  { initial_state with state := ACTIVE, current_attenuation := 5 }

/-- A state waiting at maximum attenuation, as entered from `WAITING`. -/
def waiting_state : CState :=
  { initial_state with
    state := WAITING
    mode := CONTINUOUS
    current_attenuation := 15
    current_demand := fun _ => 1
    post_in_demand := fun _ => 1
    final_demand := fun _ => 1 }

/-- A configure request whose `mode` key fails (value `3` is out of range) but
whose `pixel_count_thresholds` key succeeds. -/
def badModeGoodThresh : ConfigReq :=
  { mode := some (.ok 3), pixel_count_thresholds := some (.ok { high1 := some 5 }) }

/-- A configure request with only the out-of-range `mode` key. -/
def badModeOnly : ConfigReq := { mode := some (.ok 3) }

/-- A configure request with a valid `mode` key followed by an ill-typed
`pixel_count_thresholds` key. -/
def modeThenBadThresh : ConfigReq :=
  { mode := some (.ok 1), pixel_count_thresholds := some (.error ()) }

/- ------------------------------------------------------------------ -/
/- Helper lemmas shared by the claim theorems.                         -/
/- ------------------------------------------------------------------ -/

theorem clampAtt_eq (t : Int) : clampAtt t = max 0 (min t 15) := by
  simp only [clampAtt, MAX_ATTENUATION, max_def, min_def]
  split_ifs <;> omega

theorem clampAtt_nonneg (t : Int) : 0 ≤ clampAtt t := by
  rw [clampAtt_eq]; exact le_max_left 0 _

theorem clampAtt_le (t : Int) : clampAtt t ≤ 15 := by
  rw [clampAtt_eq]
  rcases le_total 0 (min t 15) with h | h
  · rw [max_eq_right h]; exact min_le_right t 15
  · rw [max_eq_left h]; omega

theorem set_attenuation_lp (s : CState) (t : Int) :
    (set_attenuation s t).last_processed_frame = s.last_processed_frame := rfl

theorem trigger_threshold_lp (s : CState) (n : ThresholdName) :
    (trigger_threshold s n).last_processed_frame = s.last_processed_frame := rfl

theorem transition_state_lp (s : CState) (st : Int) :
    (transition_state s st).last_processed_frame = s.last_processed_frame := by
  unfold transition_state
  split_ifs <;> rfl

theorem apply_thresholds_lp (s : CState) (h : Params) :
    (apply_thresholds s h).1.last_processed_frame = s.last_processed_frame := by
  unfold apply_thresholds
  split_ifs <;> rfl

theorem transition_state_state (s : CState) (st : Int) :
    (transition_state s st).state = st := by
  unfold transition_state
  split_ifs <;> rfl

theorem transition_state_la (s : CState) (st : Int) :
    (transition_state s st).last_adjustment = s.last_adjustment := by
  unfold transition_state
  split_ifs <;> rfl

theorem apply_thresholds_not_processed (s : CState) (h : Params)
    (hp : (apply_thresholds s h).2.2 = false) : apply_thresholds s h = (s, [], false) := by
  unfold apply_thresholds at hp ⊢
  split_ifs at hp ⊢
  rfl

theorem handle_lp (s : CState) (m : DataMsg)
    (hh : ∀ F p, m = DataMsg.obj F (some p) →
      ¬ p.high3 > (s.pixel_count_thresholds.high3 : Int))
    (r : StepResult) (hr : handle_data_message s m = .ok r) :
    r.state.last_processed_frame = s.last_processed_frame
    ∨ s.last_processed_frame + 2 ≤ r.state.last_processed_frame := by
  cases m with
  | null =>
    injection hr with h2
    subst h2
    left; rfl
  | obj F params =>
    cases F with
    | none => exact absurd hr (by simp [handle_data_message])
    | some F =>
      cases params with
      | none =>
        simp only [handle_data_message, process_data] at hr
        simp at hr
        subst hr
        left; rfl
      | some h =>
        have hhp := hh (some F) h rfl
        simp only [handle_data_message, process_data] at hr
        rw [if_neg hhp] at hr
        by_cases hle : F ≤ s.last_processed_frame
        · rw [if_pos hle] at hr
          simp at hr
          subst hr
          left; rfl
        · by_cases heq : F = s.last_processed_frame + 1
          · rw [if_neg hle, if_pos heq] at hr
            simp at hr
            subst hr
            left; rfl
          · rw [if_neg hle, if_neg heq] at hr
            by_cases hp :
                (apply_thresholds { s with last_received_frame := F } h).2.2 = true
            · rw [if_pos hp] at hr
              simp at hr
              subst hr
              right
              show s.last_processed_frame + 2 ≤ F
              omega
            · rw [if_neg hp] at hr
              simp at hr
              subst hr
              left
              exact apply_thresholds_lp { s with last_received_frame := F } h

theorem runStep_events (s : CState) (m : DataMsg) (r : StepResult)
    (hs : s.state = WAITING ∨ s.state = ACTIVE)
    (hr : handle_data_message s m = .ok r) :
    (runStep s m).events = r.events := by
  simp only [runStep, data_channel_step, if_pos hs, hr]
  by_cases hw : r.state.state = WAITING
  · rw [if_pos hw]
  · rw [if_neg hw]

theorem handle_events (s : CState) (F : Int) (p : Option Params) :
    ∃ r, handle_data_message s (.obj (some F) p) = .ok r
      ∧ r.events = [⟨F, s.last_adjustment, s.current_attenuation⟩] := by
  by_cases hb : (process_data { s with last_received_frame := F } F p).2.2 = true
  · refine ⟨⟨{ (process_data { s with last_received_frame := F } F p).1 with
        last_processed_frame := F },
      [⟨F, s.last_adjustment, s.current_attenuation⟩],
      (process_data { s with last_received_frame := F } F p).2.1, true⟩, ?_, rfl⟩
    simp only [handle_data_message]
    rw [if_pos hb]
  · refine ⟨⟨{ (process_data { s with last_received_frame := F } F p).1 with
        last_adjustment := 0 },
      [⟨F, s.last_adjustment, s.current_attenuation⟩],
      (process_data { s with last_received_frame := F } F p).2.1, false⟩, ?_, rfl⟩
    simp only [handle_data_message]
    rw [if_neg hb]

theorem publish_first (s : CState) (F : Int) (p : Option Params)
    (hs : s.state = WAITING ∨ s.state = ACTIVE) :
    (runStep s (.obj (some F) p)).events
      = [⟨F, s.last_adjustment, s.current_attenuation⟩] := by
  obtain ⟨r, hr, he⟩ := handle_events s F p
  rw [runStep_events s _ r hs hr, he]

theorem sum_bits (n : Nat) (hn : n < 16) :
    (n : Int) = ∑ i : Fin 4, 2 ^ (i : Nat) * (((n >>> (i : Nat)) &&& 1 : Nat) : Int) := by
  rw [Fin.sum_univ_four]
  interval_cases n <;> decide

theorem and_one_le_one (n : Nat) : n &&& 1 ≤ 1 := Nat.and_le_right

/- ------------------------------------------------------------------ -/
/- Claim theorems.                                                     -/
/- ------------------------------------------------------------------ -/

/-- C1: for every commanded attenuation target and every filter `i`, the
phase-1 demand computed by `_set_attenuation` satisfies
`post_in_demand[i] = final_demand[i] OR current_demand[i]` (with
`current_demand` the demand in force before the move); hence every filter
whose current demand is IN before the move is still demanded IN during
phase 1, and only phase 2 may retract it. -/
theorem c1_phase1_keeps_filters_in (s : CState) (t : Int) (i : Fin 4) :
    (set_attenuation s t).post_in_demand i
        = (set_attenuation s t).final_demand i ||| s.current_demand i
    ∧ (s.current_demand i = 1 → (set_attenuation s t).post_in_demand i = 1) := by
  refine ⟨rfl, fun h => ?_⟩
  show ((clampAtt t).toNat >>> i.val) &&& 1 ||| s.current_demand i = 1
  rw [h]
  have h2 := and_one_le_one ((clampAtt t).toNat >>> i.val)
  interval_cases h3 : ((clampAtt t).toNat >>> i.val) &&& 1 <;> rfl

theorem c1_phase1_keeps_filters_in_witness :
    ({ initial_state with current_demand := fun _ => 1 } : CState).current_demand 0 = 1
    ∧ (set_attenuation { initial_state with current_demand := fun _ => 1 } 0).post_in_demand 0
        = 1 :=
  ⟨rfl, (c1_phase1_keeps_filters_in { initial_state with current_demand := fun _ => 1 } 0 0).2 rfl⟩

/-- C4: for every integer target `t` passed to `_set_attenuation`, afterwards
`current_attenuation = clamp(t, 0, 15)` (exceeding either bound does not
wrap), every `current_demand[i]` equals bit `i` of `current_attenuation`, and
the invariant `current_attenuation = Σ 2^i · current_demand[i]` holds. -/
theorem c4_attenuation_clamped_bitmask (s : CState) (t : Int) :
    (set_attenuation s t).current_attenuation = max 0 (min t 15)
    ∧ (∀ i : Fin 4, (set_attenuation s t).current_demand i
        = (((set_attenuation s t).current_attenuation.toNat >>> (i : Nat)) &&& 1 : Nat))
    ∧ (set_attenuation s t).current_attenuation
        = ∑ i : Fin 4, 2 ^ (i : Nat) * (((set_attenuation s t).current_demand i : Nat) : Int) := by
  refine ⟨clampAtt_eq t, fun i => rfl, ?_⟩
  have h0 : 0 ≤ clampAtt t := clampAtt_nonneg t
  have h15 : clampAtt t ≤ 15 := clampAtt_le t
  have hn : (clampAtt t).toNat < 16 := by omega
  calc (set_attenuation s t).current_attenuation
      = ((clampAtt t).toNat : Int) := (Int.toNat_of_nonneg h0).symm
    _ = ∑ i : Fin 4, 2 ^ (i : Nat) * ((((clampAtt t).toNat >>> (i : Nat)) &&& 1 : Nat) : Int) :=
        sum_bits (clampAtt t).toNat hn

/-- C2 counterexample: the transition from `ACTIVE` (2) to `IDLE` (0) is a
transition between two healthy states that does not enter `WAITING` or
`SINGLESHOT_WAITING`, yet `_transition_state` commands the filter engine to
maximum attenuation (the guard is `state < 1`, which includes `IDLE`), so
`current_attenuation` is not left unchanged. -/
theorem c2_counterexample :
    0 ≤ active5_state.state
    ∧ 0 ≤ IDLE ∧ IDLE ≠ WAITING ∧ IDLE ≠ SINGLESHOT_WAITING
    ∧ (transition_state active5_state IDLE).state = IDLE
    ∧ (transition_state active5_state IDLE).current_attenuation = 15
    ∧ active5_state.current_attenuation = 5 := by
  refine ⟨by decide, by decide, by decide, by decide, rfl, by decide, rfl⟩

/-- C2 (amended): `_transition_state` commands the filter engine to
`MAX_ATTENUATION = 15` exactly when the state changes and either the new state
is below `WAITING` — the error states `TIMEOUT`/`HIGH3_TRIGGERED` and also
`IDLE` — or the new state is `WAITING`/`SINGLESHOT_WAITING` and the old state
was healthy; every other transition (in particular any transition between two
healthy states other than into `IDLE`, `WAITING` or `SINGLESHOT_WAITING`)
leaves `current_attenuation` unchanged. -/
theorem c2_amended_transition_attenuation (s : CState) (st : Int) :
    (transition_state s st).state = st
    ∧ (transition_state s st).current_attenuation =
        (if st ≠ s.state ∧ (st < 1 ∨ ((st = WAITING ∨ st = SINGLESHOT_WAITING) ∧ 0 ≤ s.state))
         then 15 else s.current_attenuation) := by
  constructor
  · unfold transition_state
    split_ifs <;> rfl
  · simp only [transition_state]
    by_cases h1 : st ≠ s.state
    · by_cases h2 : st < 1 ∨ ((st = WAITING ∨ st = SINGLESHOT_WAITING) ∧ 0 ≤ s.state)
      · rw [if_pos (And.intro h1 h2), if_pos h1, if_pos h2]
        show clampAtt MAX_ATTENUATION = 15
        decide
      · rw [if_pos h1, if_neg h2,
          if_neg (show ¬(st ≠ s.state ∧ (st < 1 ∨ (st = WAITING ∨ st = SINGLESHOT_WAITING)
            ∧ 0 ≤ s.state)) from fun hc => h2 hc.2)]
    · rw [if_neg h1,
        if_neg (show ¬(st ≠ s.state ∧ (st < 1 ∨ (st = WAITING ∨ st = SINGLESHOT_WAITING)
          ∧ 0 ≤ s.state)) from fun hc => h1 hc.1)]

/-- C6: for every non-high3 data message with frame number `F`,
`_process_data` makes no adjustment when `F ≤ last_processed_frame` (too old)
or `F = last_processed_frame + 1` (previous adjustment not yet in effect),
and when `F = last_processed_frame + 2` it passes the dedup checks and
proceeds to threshold selection. -/
theorem c6_dedup_window (s : CState) (F : Int) (h : Params)
    (h3 : ¬ h.high3 > (s.pixel_count_thresholds.high3 : Int)) :
    (F ≤ s.last_processed_frame → process_data s F (some h) = (s, [], false))
    ∧ (F = s.last_processed_frame + 1 → process_data s F (some h) = (s, [], false))
    ∧ (F = s.last_processed_frame + 2 → process_data s F (some h) = apply_thresholds s h) := by
  refine ⟨fun hF => ?_, fun hF => ?_, fun hF => ?_⟩ <;> simp only [process_data]
  · rw [if_neg h3, if_pos hF]
  · rw [if_neg h3, if_neg (show ¬F ≤ s.last_processed_frame by omega), if_pos hF]
  · rw [if_neg h3, if_neg (show ¬F ≤ s.last_processed_frame by omega),
      if_neg (show ¬F = s.last_processed_frame + 1 by omega)]

theorem c6_dedup_window_witness :
    ¬ (hzero.high3 : Int) > (lp8_state.pixel_count_thresholds.high3 : Int)
    ∧ process_data lp8_state 8 (some hzero) = (lp8_state, [], false)
    ∧ process_data lp8_state 9 (some hzero) = (lp8_state, [], false)
    ∧ process_data lp8_state 10 (some hzero) = apply_thresholds lp8_state hzero :=
  ⟨by decide,
   (c6_dedup_window lp8_state 8 hzero (by decide)).1 (by decide),
   (c6_dedup_window lp8_state 9 hzero (by decide)).2.1 (by decide),
   (c6_dedup_window lp8_state 10 hzero (by decide)).2.2 (by decide)⟩

/-- C5: for every non-high3 data message that passes the dedup checks, the
adjustment is selected by strict priority with asymmetric comparisons:
`high2 > T.high2` gives +2; else `high1 > T.high1` gives +1; else
`low2 < T.low2` gives -2; else `low1 < T.low1` gives -1; else no adjustment
is made and `_process_data` reports no attenuation change. -/
theorem c5_threshold_priority (s : CState) (F : Int) (h : Params)
    (h3 : ¬ h.high3 > (s.pixel_count_thresholds.high3 : Int))
    (hF : s.last_processed_frame + 2 ≤ F) :
    process_data s F (some h) = apply_thresholds s h
    ∧ (h.high2 > (s.pixel_count_thresholds.high2 : Int) →
        (apply_thresholds s h).1.last_adjustment = 2
        ∧ (apply_thresholds s h).1.current_attenuation
            = max 0 (min (s.current_attenuation + 2) 15)
        ∧ (apply_thresholds s h).2.2 = true)
    ∧ (¬ h.high2 > (s.pixel_count_thresholds.high2 : Int) →
        h.high1 > (s.pixel_count_thresholds.high1 : Int) →
        (apply_thresholds s h).1.last_adjustment = 1
        ∧ (apply_thresholds s h).1.current_attenuation
            = max 0 (min (s.current_attenuation + 1) 15)
        ∧ (apply_thresholds s h).2.2 = true)
    ∧ (¬ h.high2 > (s.pixel_count_thresholds.high2 : Int) →
        ¬ h.high1 > (s.pixel_count_thresholds.high1 : Int) →
        h.low2 < (s.pixel_count_thresholds.low2 : Int) →
        (apply_thresholds s h).1.last_adjustment = -2
        ∧ (apply_thresholds s h).1.current_attenuation
            = max 0 (min (s.current_attenuation + -2) 15)
        ∧ (apply_thresholds s h).2.2 = true)
    ∧ (¬ h.high2 > (s.pixel_count_thresholds.high2 : Int) →
        ¬ h.high1 > (s.pixel_count_thresholds.high1 : Int) →
        ¬ h.low2 < (s.pixel_count_thresholds.low2 : Int) →
        h.low1 < (s.pixel_count_thresholds.low1 : Int) →
        (apply_thresholds s h).1.last_adjustment = -1
        ∧ (apply_thresholds s h).1.current_attenuation
            = max 0 (min (s.current_attenuation + -1) 15)
        ∧ (apply_thresholds s h).2.2 = true)
    ∧ (¬ h.high2 > (s.pixel_count_thresholds.high2 : Int) →
        ¬ h.high1 > (s.pixel_count_thresholds.high1 : Int) →
        ¬ h.low2 < (s.pixel_count_thresholds.low2 : Int) →
        ¬ h.low1 < (s.pixel_count_thresholds.low1 : Int) →
        apply_thresholds s h = (s, [], false)) := by
  refine ⟨?_, fun c2 => ?_, fun n2 c1 => ?_, fun n2 n1 cl2 => ?_,
    fun n2 n1 nl2 cl1 => ?_, fun n2 n1 nl2 nl1 => ?_⟩
  · simp only [process_data]
    rw [if_neg h3, if_neg (show ¬F ≤ s.last_processed_frame by omega),
      if_neg (show ¬F = s.last_processed_frame + 1 by omega)]
  · simp only [apply_thresholds, if_pos c2]
    exact ⟨rfl, clampAtt_eq _, trivial⟩
  · simp only [apply_thresholds, if_neg n2, if_pos c1]
    exact ⟨rfl, clampAtt_eq _, trivial⟩
  · simp only [apply_thresholds, if_neg n2, if_neg n1, if_pos cl2]
    exact ⟨rfl, clampAtt_eq _, trivial⟩
  · simp only [apply_thresholds, if_neg n2, if_neg n1, if_neg nl2, if_pos cl1]
    exact ⟨rfl, clampAtt_eq _, trivial⟩
  · simp only [apply_thresholds, if_neg n2, if_neg n1, if_neg nl2, if_neg nl1]

theorem c5_threshold_priority_witness :
    process_data initial_state 0 (some hzero) = apply_thresholds initial_state hzero
    ∧ ((apply_thresholds initial_state hzero).1.last_adjustment = -2
       ∧ (apply_thresholds initial_state hzero).1.current_attenuation
           = max 0 (min (initial_state.current_attenuation + -2) 15)
       ∧ (apply_thresholds initial_state hzero).2.2 = true) :=
  ⟨(c5_threshold_priority initial_state 0 hzero (by decide) (by decide)).1,
   (c5_threshold_priority initial_state 0 hzero (by decide) (by decide)).2.2.2.1
     (by decide) (by decide) (by decide)⟩

/-- C3: for every data message handled in `WAITING` or `ACTIVE` whose
`parameters.high3` value is strictly greater than the high3 threshold, the
engine commands the shutter to close, records the adjustment as +15, and
transitions to `HIGH3_TRIGGERED` — regardless of the frame number `F`
(which is universally quantified here, so the dedup rules are bypassed even
when `F ≤ last_processed_frame` or `F = last_processed_frame + 1`). -/
theorem c3_high3_override (s : CState) (F : Int) (h : Params)
    (hs : s.state = WAITING ∨ s.state = ACTIVE)
    (hh : h.high3 > (s.pixel_count_thresholds.high3 : Int)) :
    (runStep s (.obj (some F) (some h))).cmds = [MotionCmd.closeShutter]
    ∧ (runStep s (.obj (some F) (some h))).state.state = HIGH3_TRIGGERED
    ∧ (runStep s (.obj (some F) (some h))).state.last_adjustment = 15
    ∧ (runStep s (.obj (some F) (some h))).processed = true := by
  have hmsg : handle_data_message s (.obj (some F) (some h))
      = .ok ⟨{ transition_state
                (trigger_threshold { s with last_received_frame := F } .high3)
                HIGH3_TRIGGERED with last_processed_frame := F },
             [⟨F, s.last_adjustment, s.current_attenuation⟩],
             [MotionCmd.closeShutter], true⟩ := by
    simp only [handle_data_message, process_data]
    rw [if_pos hh]
    rfl
  have hst : (transition_state
      (trigger_threshold { s with last_received_frame := F } .high3)
      HIGH3_TRIGGERED).state = HIGH3_TRIGGERED := transition_state_state _ _
  simp only [runStep, data_channel_step, if_pos hs, hmsg, hst]
  refine ⟨rfl, ?_, ?_, rfl⟩ <;>
    simp only [show ¬((HIGH3_TRIGGERED : Int) = WAITING) by decide, if_false, hst]
  exact transition_state_la _ _

theorem c3_high3_override_witness :
    (runStep active5_state (.obj (some 1000) (some hHigh3))).cmds = [MotionCmd.closeShutter]
    ∧ (runStep active5_state (.obj (some 1000) (some hHigh3))).state.state = HIGH3_TRIGGERED
    ∧ (runStep active5_state (.obj (some 1000) (some hHigh3))).state.last_adjustment = 15
    ∧ (runStep active5_state (.obj (some 1000) (some hHigh3))).processed = true :=
  c3_high3_override active5_state 1000 hHigh3 (Or.inr rfl) (by decide)

/-- C7 counterexample: with `last_processed_frame = 10`, a high3-breaching
message carrying the older frame number 3 is still processed (high3 bypasses
the dedup rules) and `last_processed_frame` is set to 3, a strictly smaller
value, so the per-message handling step is not monotone. -/
theorem c7_counterexample :
    lp10_active_state.last_processed_frame = 10
    ∧ (runStep lp10_active_state (.obj (some 3) (some hHigh3))).state.last_processed_frame
        = 3 := by
  exact ⟨rfl, by decide⟩

/-- C7 (amended): for every handling step on a data message that does not
breach the high3 threshold, `last_processed_frame` is monotonically
non-decreasing: the step either leaves it unchanged or sets it to a value at
least `last_processed_frame + 2`.  (A high3-breaching message is processed
regardless of its frame number and may set `last_processed_frame` to a
smaller value, as the counterexample shows.) -/
theorem c7_amended_lp_monotone (s : CState) (m : DataMsg)
    (hh : ∀ F p, m = DataMsg.obj F (some p) →
      ¬ p.high3 > (s.pixel_count_thresholds.high3 : Int)) :
    s.last_processed_frame ≤ (runStep s m).state.last_processed_frame
    ∧ ((runStep s m).state.last_processed_frame = s.last_processed_frame
       ∨ s.last_processed_frame + 2 ≤ (runStep s m).state.last_processed_frame) := by
  have key : (runStep s m).state.last_processed_frame = s.last_processed_frame
      ∨ s.last_processed_frame + 2 ≤ (runStep s m).state.last_processed_frame := by
    by_cases hst : s.state = WAITING ∨ s.state = ACTIVE
    · cases hmr : handle_data_message s m with
      | error e =>
        simp only [runStep, data_channel_step, if_pos hst, hmr]
        left; trivial
      | ok r =>
        have h1 := handle_lp s m hh r hmr
        by_cases hw : r.state.state = WAITING
        · simp only [runStep, data_channel_step, if_pos hst, hmr, if_pos hw]
          rcases h1 with h1 | h1
          · left
            rw [transition_state_lp]
            exact h1
          · right
            rw [transition_state_lp]
            exact h1
        · simp only [runStep, data_channel_step, if_pos hst, hmr, if_neg hw]
          exact h1
    · simp only [runStep, data_channel_step, if_neg hst]
      left; trivial
  exact ⟨by rcases key with h | h <;> omega, key⟩

theorem c7_amended_lp_monotone_witness :
    lp8_state.last_processed_frame
      ≤ (runStep lp8_state (.obj (some 3) (some hzero))).state.last_processed_frame
    ∧ ((runStep lp8_state (.obj (some 3) (some hzero))).state.last_processed_frame
        = lp8_state.last_processed_frame
       ∨ lp8_state.last_processed_frame + 2
          ≤ (runStep lp8_state (.obj (some 3) (some hzero))).state.last_processed_frame) :=
  c7_amended_lp_monotone lp8_state (.obj (some 3) (some hzero))
    (fun F p hm => by cases hm; decide)

/-- C8: for every data message handled in `WAITING`/`ACTIVE` that is non-null
and carries frame number `F`, exactly one event
`{frame_number: F, adjustment: last_adjustment, attenuation:
current_attenuation}` is published, with the values taken from the state
before the decision for frame `F` is made; consequently, if processing `F`
applied an adjustment, the event for the next handled message carries that
adjustment (`last_adjustment` of the post-`F` state) and the attenuation
value in force after processing `F`. -/
theorem c8_publish_event_first (s : CState) (F : Int) (p : Option Params)
    (F2 : Int) (p2 : Option Params)
    (hs : s.state = WAITING ∨ s.state = ACTIVE) :
    (runStep s (.obj (some F) p)).events
        = [⟨F, s.last_adjustment, s.current_attenuation⟩]
    ∧ ((runStep s (.obj (some F) p)).processed = true →
        ((runStep s (.obj (some F) p)).state.state = WAITING
          ∨ (runStep s (.obj (some F) p)).state.state = ACTIVE) →
        (runStep (runStep s (.obj (some F) p)).state (.obj (some F2) p2)).events
          = [⟨F2, (runStep s (.obj (some F) p)).state.last_adjustment,
               (runStep s (.obj (some F) p)).state.current_attenuation⟩]) :=
  ⟨publish_first s F p hs, fun _ hs2 => publish_first _ F2 p2 hs2⟩

theorem c8_publish_event_first_witness :
    (runStep waiting_state (.obj (some 0) (some hzero))).events = [⟨0, 0, 15⟩]
    ∧ (runStep (runStep waiting_state (.obj (some 0) (some hzero))).state
        (.obj (some 2) (some hzero))).events = [⟨2, -2, 13⟩] :=
  ⟨(c8_publish_event_first waiting_state 0 (some hzero) 2 (some hzero) (Or.inl rfl)).1,
   (c8_publish_event_first waiting_state 0 (some hzero) 2 (some hzero) (Or.inl rfl)).2
     (by decide) (by decide)⟩

/-- C9 counterexample: a configure request containing the recognized key
`mode` with the invalid value 3 (which fails to apply, as the second conjunct
shows) together with a valid `pixel_count_thresholds` key is answered with
`success = true`: `_handle_config` overwrites the running success flag with
each key's result, so an earlier failure is masked by a later success. -/
theorem c9_counterexample :
    (handle_configure_request initial_state (some badModeGoodThresh)).2 = true
    ∧ (handle_configure_request initial_state (some badModeOnly)).2 = false
    ∧ (handle_configure_request initial_state (some badModeGoodThresh)).1.mode
        = initial_state.mode := by
  refine ⟨by decide, by decide, by decide⟩

/-- C9 (amended): `success` reflects the result of the last recognized key
processed (keys are processed in the order mode, in_positions, out_positions,
pixel_count_thresholds, attenuation, timeout), so a non-throwing failure can
be masked by a later success; however, a key whose value has the wrong type
throws `json::type_error`, which skips the remaining keys and forces
`success = false`, while the recognized keys applied before the failure
remain applied (no rollback).  Stated here for a type error at
`pixel_count_thresholds` with well-typed earlier keys: the reply is
`success = false` and the resulting state is exactly the state after
applying only the earlier keys. -/
theorem c9_amended_no_rollback (s : CState) (c : ConfigReq)
    (hm : c.mode ≠ some (Except.error ()))
    (hi : c.in_positions ≠ some (Except.error ()))
    (ho : c.out_positions ≠ some (Except.error ()))
    (ht : c.pixel_count_thresholds = some (Except.error ())) :
    handle_configure_request s (some c)
      = ((handle_config s
          { mode := c.mode
            in_positions := c.in_positions
            out_positions := c.out_positions }).1, false) := by
  obtain ⟨cm, ci, co, cp, ca, ct⟩ := c
  simp only at hm hi ho ht ⊢
  subst ht
  cases cm with
  | none =>
    cases ci with
    | none =>
      cases co with
      | none => rfl
      | some vo => cases vo with
        | error e => exact absurd rfl ho
        | ok o => rfl
    | some vi => cases vi with
      | error e => exact absurd rfl hi
      | ok i =>
        cases co with
        | none => rfl
        | some vo => cases vo with
          | error e => exact absurd rfl ho
          | ok o => rfl
  | some vm => cases vm with
    | error e => exact absurd rfl hm
    | ok m =>
      cases ci with
      | none =>
        cases co with
        | none => rfl
        | some vo => cases vo with
          | error e => exact absurd rfl ho
          | ok o => rfl
      | some vi => cases vi with
        | error e => exact absurd rfl hi
        | ok i =>
          cases co with
          | none => rfl
          | some vo => cases vo with
            | error e => exact absurd rfl ho
            | ok o => rfl

theorem c9_amended_no_rollback_witness :
    handle_configure_request initial_state (some modeThenBadThresh)
      = ((handle_config initial_state { mode := some (Except.ok 1) }).1, false) :=
  c9_amended_no_rollback initial_state modeThenBadThresh
    (fun hc => Except.noConfusion (Option.some.inj hc))
    (fun hc => Option.noConfusion hc)
    (fun hc => Option.noConfusion hc)
    rfl

/-- C10 counterexample: a data message handled in `ACTIVE` that has a
`frame_number` but is missing the `parameters` key is not a silent drop: an
event is still published for it and `last_received_frame` changes from its
previous value (-2) to 5, so the message does change state. -/
theorem c10_counterexample :
    (runStep active5_state (.obj (some 5) none)).events = [⟨5, 0, 5⟩]
    ∧ (runStep active5_state (.obj (some 5) none)).state.last_received_frame = 5
    ∧ active5_state.last_received_frame = -2 := by
  refine ⟨by decide, by decide, rfl⟩

/-- C10 (amended): in `ACTIVE`, an unparseable (null) data message is dropped
with a log and changes nothing — no event is published and the state record
is returned unchanged.  A message that has a `frame_number` but is missing
`parameters` is dropped without adjustment, but it still publishes one event,
records `last_received_frame` (and the message timestamp, not modelled) and
zeroes `last_adjustment`.  A message missing `frame_number` raises a
`json::type_error` instead of being logged and dropped. -/
theorem c10_amended_malformed_data (s : CState) (F : Int) (p : Params)
    (hs : s.state = ACTIVE) :
    data_channel_step s DataMsg.null = Except.ok ⟨s, [], [], false⟩
    ∧ data_channel_step s (DataMsg.obj (some F) none)
        = Except.ok ⟨{ s with last_received_frame := F, last_adjustment := 0 },
            [⟨F, s.last_adjustment, s.current_attenuation⟩], [], false⟩
    ∧ data_channel_step s (DataMsg.obj none (some p)) = Except.error () := by
  refine ⟨?_, ?_, ?_⟩
  · simp [data_channel_step, handle_data_message, hs, ACTIVE, WAITING]
  · simp [data_channel_step, handle_data_message, process_data, hs, ACTIVE, WAITING]
  · simp [data_channel_step, handle_data_message, hs, ACTIVE, WAITING]

theorem c10_amended_malformed_data_witness :
    data_channel_step active5_state DataMsg.null
        = Except.ok ⟨active5_state, [], [], false⟩
    ∧ data_channel_step active5_state (DataMsg.obj (some 5) none)
        = Except.ok ⟨{ active5_state with last_received_frame := 5, last_adjustment := 0 },
            [⟨5, active5_state.last_adjustment, active5_state.current_attenuation⟩],
            [], false⟩
    ∧ data_channel_step active5_state (DataMsg.obj none (some hzero)) = Except.error () :=
  c10_amended_malformed_data active5_state 5 hzero rfl

end PmacFilterControl
